import Mathlib

/-!
Shallow embedding of the ER triage decision-support workflow engine
(`er_agentic_workflow`): state model (`src/workflow/state.py`), workflow
nodes (`src/workflow/nodes.py`), routing predicates (`src/workflow/routing.py`),
patient risk scoring (`src/utils/risk_scoring.py`), the node wrapper with
retry, audit logging and safe defaults (`src/utils/logging.py`), the fusion
agent output normalization (`src/models/fusion_agent.py`), and the graph
wiring (`src/workflow/graph.py`).

Python floats are modelled as rationals (`ℚ`); Python `None`-able values as
`Option`; dictionaries whose keys are fixed in the source as structures with
`Option` fields (a missing key and a key set to `None` both map to `none`,
which matches every `state.get(...)` read in the source).  External
collaborators (DB fetch, the two predictors, the generative fusion agent)
are oracle parameters: the engine code never inspects more of them than the
value/exception they produce.
-/

namespace ER

/-- Python `min` on two rationals (kernel-reducible, unlike the order-theoretic
`min` bundled in Mathlib's `LinearOrder ℚ`). -/
def rmin (a b : ℚ) : ℚ := if a ≤ b then a else b

/-- Python `max` on two rationals. -/
def rmax (a b : ℚ) : ℚ := if a ≤ b then b else a

/-- Python `abs` on a rational. -/
def rabs (a : ℚ) : ℚ := if a < 0 then -a else a

@[simp] lemma rmin_eq_min (a b : ℚ) : rmin a b = min a b := by
  simp [rmin, min_def]

@[simp] lemma rmax_eq_max (a b : ℚ) : rmax a b = max a b := by
  simp [rmax, max_def]

@[simp] lemma rabs_eq_abs (a : ℚ) : rabs a = |a| := by
  rcases lt_or_le a 0 with h | h
  · simp [rabs, h, abs_of_neg h]
  · simp [rabs, not_lt.mpr h, abs_of_nonneg h]

/-- `max(0.0, min(1.0, x))` as used throughout `nodes.py` to clamp scores. -/
def clamp01 (x : ℚ) : ℚ := rmax 0 (rmin 1 x)

/-- `VitalSigns` pydantic model from `src/workflow/state.py` (all fields
independently nullable). -/
structure VitalSigns where
  sex : Option String := none
  age_bucket : Option String := none
  heart_rate : Option ℚ := none
  resp_rate : Option ℚ := none
  bp_systolic : Option ℚ := none
  bp_diastolic : Option ℚ := none
  oxygen_saturation : Option ℚ := none
  temperature_C : Option ℚ := none
  ESI : Option ℤ := none
  mental_status : Option String := none
  recent_admissions_30d : Option ℕ := none
deriving Repr, DecidableEq

/-- The keys of the `patient_data` dictionary read by the engine
(`severity_gate_node`, `calculate_patient_risk_score`, `fusion_node`).
Admission/visit counts come from SQL `COUNT`/`SUM` of a 0/1 column in
`database/queries.py`, hence natural numbers. -/
structure PatientData where
  age_bucket : Option String := none
  ESI : Option ℤ := none
  recent_admissions_30d : Option ℕ := none
  historical_visit_count : Option ℕ := none
  historical_admission_count : Option ℕ := none
  heart_rate : Option ℚ := none
  bp_systolic : Option ℚ := none
  oxygen_saturation : Option ℚ := none
deriving Repr, DecidableEq

/-- The `ERState` TypedDict from `src/workflow/state.py` (`total=False`:
every key optional).  Node outputs are represented with the same structure,
all-`none` meaning the empty partial dict. -/
structure ERState where
  visit_id : Option ℤ := none
  human_prompt : Option String := none
  patient_data : Option PatientData := none
  vitals_validated : Option VitalSigns := none
  triage_text : Option String := none
  ml_score : Option ℚ := none
  llm_score : Option ℚ := none
  severe : Option Bool := none
  p_final : Option ℚ := none
  fused_prob : Option ℚ := none
  decision : Option String := none
  final_decision : Option String := none
  rationale : Option String := none
  fusion_decision : Option String := none
  fusion_rationale : Option String := none
  human_override : Option ℚ := none
  severity_factors : Option (List String) := none
deriving Repr, DecidableEq

/-- Key-wise dictionary update: a key present in the partial output `p`
overrides the one in `s` (LangGraph merges node output dicts into state). -/
def pick {α : Type} (p s : Option α) : Option α :=
  match p with
  | some x => some x
  | none => s

@[simp] lemma pick_some {α : Type} (x : α) (s : Option α) : pick (some x) s = some x := rfl

@[simp] lemma pick_none {α : Type} (s : Option α) : pick none s = s := rfl

/-- Merge a node's partial output `p` into state `s` (key-wise override). -/
def mergeState (s p : ERState) : ERState where
  visit_id := pick p.visit_id s.visit_id
  human_prompt := pick p.human_prompt s.human_prompt
  patient_data := pick p.patient_data s.patient_data
  vitals_validated := pick p.vitals_validated s.vitals_validated
  triage_text := pick p.triage_text s.triage_text
  ml_score := pick p.ml_score s.ml_score
  llm_score := pick p.llm_score s.llm_score
  severe := pick p.severe s.severe
  p_final := pick p.p_final s.p_final
  fused_prob := pick p.fused_prob s.fused_prob
  decision := pick p.decision s.decision
  final_decision := pick p.final_decision s.final_decision
  rationale := pick p.rationale s.rationale
  fusion_decision := pick p.fusion_decision s.fusion_decision
  fusion_rationale := pick p.fusion_rationale s.fusion_rationale
  human_override := pick p.human_override s.human_override
  severity_factors := pick p.severity_factors s.severity_factors

/-- `x is not None and x < c` on a nullable float. -/
def ltOpt (o : Option ℚ) (c : ℚ) : Bool :=
  match o with
  | some x => decide (x < c)
  | none => false

/-- `x is not None and x > c` on a nullable float. -/
def gtOpt (o : Option ℚ) (c : ℚ) : Bool :=
  match o with
  | some x => decide (x > c)
  | none => false

@[simp] lemma ltOpt_eq_true {o : Option ℚ} {c : ℚ} :
    ltOpt o c = true ↔ ∃ x, o = some x ∧ x < c := by
  cases o <;> simp [ltOpt]

@[simp] lemma gtOpt_eq_true {o : Option ℚ} {c : ℚ} :
    gtOpt o c = true ↔ ∃ x, o = some x ∧ x > c := by
  cases o <;> simp [gtOpt]

/-- `critical_vitals` from `severity_gate_node` (`nodes.py` lines 63-67). -/
def criticalVitals (v : VitalSigns) : Bool :=
  ltOpt v.oxygen_saturation 88 ||
  ltOpt v.bp_systolic 80 ||
  (gtOpt v.resp_rate 35 || ltOpt v.resp_rate 8)

/-- `critical_esi` from `severity_gate_node`: `esi is not None and esi <= 2`. -/
def criticalEsi (pd : PatientData) : Bool :=
  match pd.ESI with
  | some e => decide (e ≤ 2)
  | none => false

/-- `high_readmission`: `patient_data.get('recent_admissions_30d', 0) >= 2`. -/
def highReadmission (pd : PatientData) : Bool :=
  decide (pd.recent_admissions_30d.getD 0 ≥ 2)

/-- `elderly_risk` from `severity_gate_node` (`nodes.py` lines 78-83). -/
def elderlyRisk (v : VitalSigns) (pd : PatientData) : Bool :=
  decide (pd.age_bucket.getD "" = "65+") &&
  (gtOpt v.heart_rate 100 ||
   gtOpt v.temperature_C (38.5 : ℚ) ||
   ltOpt v.oxygen_saturation 92)

/-- `is_severe = critical_vitals or critical_esi or (high_readmission and elderly_risk)`. -/
def isSevere (v : VitalSigns) (pd : PatientData) : Bool :=
  criticalVitals v || criticalEsi pd || (highReadmission pd && elderlyRisk v pd)

/-- The `severity_reasons` list built in the severe branch of
`severity_gate_node` (`nodes.py` lines 89-93), in source order. -/
def severityReasons (v : VitalSigns) (pd : PatientData) : List String :=
  (if criticalVitals v then ["Critical vitals"] else []) ++
  (match pd.ESI with
   | some e => if criticalEsi pd then [s!"ESI level {e}"] else []
   | none => []) ++
  (if highReadmission pd then
     (let n := pd.recent_admissions_30d.getD 0
      [s!"{n} recent admissions"])
   else []) ++
  (if elderlyRisk v pd then ["Elderly with concerning vitals"] else [])

/-- The rationale string of the severe branch. -/
def severityRationale (v : VitalSigns) (pd : PatientData) : String :=
  let rs := String.intercalate ", " (severityReasons v pd)
  s!"Severe case: {rs}. Immediate admission required."

/-- `severity_gate_node` (`nodes.py` lines 50-105).  The severe branch
returns the keys `severe`, `decision`, `p_final`, `rationale`,
`severity_factors`; the non-severe branch returns only `severe`. -/
def severity_gate_node (v : VitalSigns) (pd : PatientData) : ERState :=
  if isSevere v pd then
    { severe := some true
      decision := some "Admit"
      p_final := some 1
      rationale := some (severityRationale v pd)
      severity_factors := some (severityReasons v pd) }
  else
    { severe := some false }

/-- `conditional_severity_gate` (`routing.py` lines 7-20):
`state.get("severe", False)` decides between the early-exit edge (`"end"`,
wired to `END` in `graph.py`) and the fan-out edge (`"run_models"`). -/
def conditional_severity_gate (s : ERState) : String :=
  if s.severe.getD false then "end" else "run_models"

/-- Age-bucket component of `calculate_patient_risk_score`
(`risk_scoring.py` lines 78-83). -/
def ageRisk (pd : PatientData) : ℚ :=
  let b := pd.age_bucket.getD ""
  if b = "0-17" then 1/10
  else if b = "18-34" then 0
  else if b = "35-49" then 1/20
  else if b = "50-64" then 1/10
  else if b = "65+" then 1/5
  else 0

/-- ESI (acuity) component, dictionary lookup with default `0.1`
(`risk_scoring.py` lines 86-88); the ESI key itself defaults to 3. -/
def esiRisk (pd : PatientData) : ℚ :=
  let e := pd.ESI.getD 3
  if e = 1 then 3/10
  else if e = 2 then 1/4
  else if e = 3 then 1/10
  else if e = 4 then 1/20
  else if e = 5 then 0
  else 1/10

/-- Recent-readmission component `min(recent_adm * 0.1, 0.2)`. -/
def readmissionRisk (pd : PatientData) : ℚ :=
  rmin ((pd.recent_admissions_30d.getD 0 : ℚ) * (1/10)) (1/5)

/-- Historical admission-rate component `rate * 0.15`, only when the
patient has prior visits (`risk_scoring.py` lines 95-99). -/
def historyRisk (pd : PatientData) : ℚ :=
  let v := pd.historical_visit_count.getD 0
  let a := pd.historical_admission_count.getD 0
  if v > 0 then ((a : ℚ) / (v : ℚ)) * (3/20) else 0

/-- Vital-abnormality component: 0.05 each for abnormal heart rate,
abnormal systolic pressure and low oxygen saturation, capped at 0.15
(`risk_scoring.py` lines 102-112); missing vitals default to normal
readings 70 / 120 / 98. -/
def vitalsRisk (pd : PatientData) : ℚ :=
  let hr := pd.heart_rate.getD 70
  let bp := pd.bp_systolic.getD 120
  let o2 := pd.oxygen_saturation.getD 98
  rmin ((if hr > 100 ∨ hr < 60 then (1/20 : ℚ) else 0) +
       (if bp > 160 ∨ bp < 90 then (1/20 : ℚ) else 0) +
       (if o2 < 95 then (1/20 : ℚ) else 0)) (3/20)

/-- `calculate_patient_risk_score` (`risk_scoring.py` lines 58-114):
weighted sum of the five components, capped at 1.0. -/
def calculate_patient_risk_score (pd : PatientData) : ℚ :=
  rmin (ageRisk pd + esiRisk pd + readmissionRisk pd + historyRisk pd + vitalsRisk pd) 1

/-- `conditional_confidence_routing` (`routing.py` lines 23-61). -/
def conditional_confidence_routing (s : ERState) : String :=
  match s.ml_score, s.llm_score with
  | some ml, some llm =>
    let pd := s.patient_data.getD {}
    let patientRisk := calculate_patient_risk_score pd
    let highConfGap : ℚ := if patientRisk > 1/2 then 3/20 else 1/4
    let highConfThresh : ℚ := if patientRisk > 1/2 then 13/20 else 3/4
    let probGap := rabs (ml - llm)
    let avgProb := (ml + llm) / 2
    if probGap < highConfGap ∧ avgProb > highConfThresh then "high_confidence"
    else "low_confidence"
  | _, _ => "low_confidence"

/-! ### Fusion agent (`src/models/fusion_agent.py`) -/

/-- ASCII lowercase of one character (kernel-reducible model of Python
`str.lower` on the ASCII strings the engine compares against). -/
def lowerChar (c : Char) : Char :=
  if 65 ≤ c.toNat ∧ c.toNat ≤ 90 then Char.ofNat (c.toNat + 32) else c

/-- Python `str.lower` (ASCII fragment). -/
def pyLower (s : String) : String := ⟨s.data.map lowerChar⟩

/-- Python whitespace test used by `str.strip`. -/
def isPyWhitespace (c : Char) : Bool :=
  c = ' ' || c = '\t' || c = '\n' || c = '\r' || c = '\x0b' || c = '\x0c'

/-- Python `str.strip` (drop leading and trailing whitespace). -/
def pyStrip (s : String) : String :=
  ⟨((s.data.dropWhile isPyWhitespace).reverse.dropWhile isPyWhitespace).reverse⟩

/-- Abstraction of the dict that `parse_json_with_fallback` extracts from a
raw generative response: the `decision` / `rationale` keys, each possibly
missing. -/
structure FusionOut where
  decision : Option String := none
  rationale : Option String := none
deriving Repr, DecidableEq

/-- Outcome of one generate-and-parse attempt inside `run_fusion_agent`:
the model call raised, the response was unparsable (or parsed without a
`decision` key — handled below), or it parsed to a dict. -/
inductive AgentAttempt where
  | raised (msg : String)
  | unparsable
  | parsed (j : FusionOut)
deriving Repr, DecidableEq

/-- Default rationale synthesized by `run_fusion_agent` when the parsed
dict has no (or an empty) rationale (`fusion_agent.py` lines 165-169).
The Python code renders the probabilities with two decimals; the numeric
rendering is abstracted by plain `toString`. -/
def synthesizedRationale (ml llm : ℚ) (d : String) : String :=
  s!"Based on ML probability {ml} and LLM probability {llm}, decision: {d}."

/-- Decision/rationale normalization applied by `run_fusion_agent` to a
parsed dict that contains a `decision` key (`fusion_agent.py` lines 150-171):
case-insensitive synonym normalization, fallback inference from the numeric
signals (`> 0.7` on either ⇒ Admit) for unrecognized strings, and rationale
synthesis when absent or falsy. -/
def normalizeParsed (ml llm : ℚ) (j : FusionOut) (d : String) : FusionOut :=
  let dl := pyLower (pyStrip d)
  let dec :=
    if dl = "admit" ∨ dl = "admission" ∨ dl = "admitted" then "Admit"
    else if dl = "discharge" ∨ dl = "discharged" ∨ dl = "discharging" then "Discharge"
    else if ml > 7/10 ∨ llm > 7/10 then "Admit"
    else "Discharge"
  let rat :=
    match j.rationale with
    | some r => if r = "" then synthesizedRationale ml llm dec else r
    | none => synthesizedRationale ml llm dec
  { decision := some dec, rationale := some rat }

/-- The retry loop of `run_fusion_agent` (`fusion_agent.py` lines 140-187):
an attempt that raises, is unparsable, or parses without a `decision` key
falls through to the next attempt; the first parsed dict with a `decision`
key is normalized and returned. -/
def fusionAgentLoop (ml llm : ℚ) : List AgentAttempt → Option FusionOut
  | [] => none
  | a :: rest =>
    match a with
    | .parsed j =>
      match j.decision with
      | some d => some (normalizeParsed ml llm j d)
      | none => fusionAgentLoop ml llm rest
    | _ => fusionAgentLoop ml llm rest

/-- `run_fusion_agent` (`fusion_agent.py` lines 87-193), over the list of
its `max_retries + 1` attempt outcomes.  When every attempt fails it
returns the error dict of lines 190-193. -/
def run_fusion_agent (ml llm : ℚ) (attempts : List AgentAttempt) : FusionOut :=
  match fusionAgentLoop ml llm attempts with
  | some j => j
  | none =>
    let n := attempts.length
    { decision := some "Error"
      rationale := some s!"Fusion agent failed after {n} attempts. Using weighted average fallback." }

/-! ### Workflow nodes (`src/workflow/nodes.py`) -/

/-- Global admission threshold (`nodes.py` line 15). -/
def ADMISSION_THRESHOLD : ℚ := 1/2

/-- The typed output dict of `fusion_node`. -/
structure FusionNodeOut where
  fused_prob : ℚ
  p_final : ℚ
  fusion_decision : String
  fusion_rationale : String
deriving Repr, DecidableEq

/-- The weighted-average fallback rationale of `nodes.py` line 301. -/
def fusionFallbackRationale (p : ℚ) (d : String) : String :=
  s!"Fusion agent unavailable. Using weighted average (0.5*ML + 0.5*LLM) = {p}. Decision: {d}."

/-- `fusion_node` (`nodes.py` lines 198-315).  `agent` is the outcome of the
`run_fusion_agent` call: `.ok j` when it returned a dict, `.error e` when it
(or the lazy model loading) raised.  The prompt/context assembly of lines
229-259 only feeds the external agent and does not influence the returned
fields, so it is absorbed into the oracle. -/
def fusion_node (mlScore llmScore : Option ℚ) (agent : Except String FusionOut) :
    FusionNodeOut :=
  -- lines 209-224: default missing scores to 0.5, clamp into [0,1]
  let mlProb := clamp01 (mlScore.getD (1/2))
  let llmProb := clamp01 (llmScore.getD (1/2))
  -- lines 246-284: call the agent; repair a missing/"Error" decision from
  -- the 0.7 rule; an exception yields the error dict plus `fusion_error`
  let callRes : FusionOut × Option String :=
    match agent with
    | .ok j =>
      if j.decision = none ∨ j.decision = some "Error" then
        let d := if mlProb > 7/10 ∨ llmProb > 7/10 then "Admit" else "Discharge"
        let r := j.rationale.getD s!"Inferred decision from probabilities (ML: {mlProb}, LLM: {llmProb})"
        ({ decision := some d, rationale := some r }, none)
      else (j, none)
    | .error e =>
      ({ decision := some "Error"
         rationale := some s!"Exception during fusion agent call: {e}. Using weighted average." },
       some e)
  let fusionOutput := callRes.1
  let fusionError := callRes.2
  -- lines 286-290
  let fusionDecision := fusionOutput.decision.getD "Error"
  let fusionRationale := fusionOutput.rationale.getD
    "No rationale returned by fusion agent. Using weighted average of ML and LLM scores."
  -- line 293: the numeric fallback law, always computed
  let fusedProb := (1/2 : ℚ) * mlProb + (1/2 : ℚ) * llmProb
  -- lines 296-301: on failure, derive the decision from the weighted average
  if fusionError.isSome ∨ fusionDecision = "Error" then
    let d := if fusedProb ≥ 1/2 then "Admit" else "Discharge"
    ⟨fusedProb, fusedProb, d, fusionFallbackRationale fusedProb d⟩
  else
    ⟨fusedProb, fusedProb, fusionDecision, fusionRationale⟩

/-- View a `fusion_node` output as the partial state it merges. -/
def fusionPartial (o : FusionNodeOut) : ERState where
  fused_prob := some o.fused_prob
  p_final := some o.p_final
  fusion_decision := some o.fusion_decision
  fusion_rationale := some o.fusion_rationale

/-- `ml_model_node` (`nodes.py` lines 108-141), over the outcome of the
`ml_predict_proba` call: an in-range score passes through, an out-of-range
score is clamped (both cases equal `clamp01`), an exception yields the
neutral score 0.5. -/
def ml_model_node (raw : Except String ℚ) : ERState :=
  match raw with
  | .ok score => { ml_score := some (clamp01 score) }
  | .error _ => { ml_score := some (1/2) }

/-- `llm_model_node` (`nodes.py` lines 144-184), same shape as the ML node. -/
def llm_model_node (raw : Except String ℚ) : ERState :=
  match raw with
  | .ok score => { llm_score := some (clamp01 score) }
  | .error _ => { llm_score := some (1/2) }

/-- `human_input_node` (`nodes.py` lines 187-195): acknowledges the note,
returns the empty dict. -/
def human_input_node : ERState := {}

/-- `run_models_node` (`nodes.py` lines 450-457): fan-out router, empty dict. -/
def run_models_node : ERState := {}

/-- `human_review_node` (`nodes.py` lines 341-365). -/
def human_review_node (s : ERState) : ERState :=
  match s.human_override with
  | some o => { fused_prob := some o, p_final := some o }
  | none =>
    let f := pick s.fused_prob s.p_final
    { fused_prob := f, p_final := f }

/-- Rationale of `finalize_node` when the fusion agent supplied a decision
and a non-blank rationale (`nodes.py` line 410). -/
def fusionDecisionRationale (d fr : String) : String :=
  s!"Fusion agent decision: {d}. {fr}"

/-- Rationale of `finalize_node` when the fusion agent supplied a decision
but no usable rationale (`nodes.py` lines 412-415). -/
def fusionProbRationale (d : String) (f : ℚ) : String :=
  s!"Fusion agent decision: {d}. Fused probability: {f}."

/-- The threshold branch of `finalize_node` (`nodes.py` lines 418-433). -/
def thresholdPair (f : ℚ) : String × String :=
  let t := ADMISSION_THRESHOLD
  if f ≥ ADMISSION_THRESHOLD then
    ("ADMIT", s!"Fused probability {f} ≥ threshold {t}; patient should be admitted.")
  else
    ("DISCHARGE", s!"Fused probability {f} < threshold {t}; patient may be safely discharged.")

/-- `finalize_node` (`nodes.py` lines 368-447).  Note the Python truthiness
tests: `fusion_decision and fusion_decision != "Error"` treats the empty
string like a missing decision, and `fusion_rationale and
fusion_rationale.strip()` treats a blank rationale as absent.  The node
returns the whole merged state. -/
def finalize_node (s : ERState) : ERState :=
  let fused := pick s.fused_prob s.p_final
  let fr := s.fusion_rationale.getD ""
  let pair : String × String :=
    match fused with
    | none =>
      ("UNKNOWN",
       "Missing fused_prob; unable to generate a final decision. Check fusion or human review steps.")
    | some f =>
      match s.fusion_decision with
      | some d =>
        if d ≠ "" ∧ d ≠ "Error" then
          let dl := pyLower d
          let dec :=
            if dl = "admit" ∨ dl = "admission" then "ADMIT"
            else if dl = "discharge" ∨ dl = "discharged" then "DISCHARGE"
            else (thresholdPair f).1
          let rat :=
            if pyStrip fr ≠ "" then fusionDecisionRationale d fr
            else fusionProbRationale d f
          (dec, rat)
        else thresholdPair f
      | none => thresholdPair f
  { s with
    final_decision := some pair.1
    rationale := some pair.2
    decision := some pair.1
    p_final := fused }

/-! ### Node wrapper (`src/utils/logging.py`) -/

/-- One audit-trail side effect of a wrapped node invocation:
`input`/`output`/`errorRecord` are the `<name>_INPUT` / `<name>_OUTPUT` /
`<name>_ERROR` records written through `log_event`; `errorLog` is a
`log_error` record (separate error file, written once per failed attempt);
`sleep` is the backoff delay in seconds. -/
inductive AuditEvent where
  | input (n : String)
  | output (n : String)
  | errorRecord (n : String)
  | errorLog (n : String)
  | sleep (duration : ℚ)
deriving Repr, DecidableEq

/-- The fixed critical set of `make_logged_node` (`logging.py` line 290). -/
def criticalNodes : List String := ["fetch_data", "severity_gate"]

/-- `_get_safe_default_output` (`logging.py` lines 169-195), as the partial
state (or pass-through state) substituted for an exhausted non-critical
node. -/
def safeDefaultOutput (nodeName : String) (state : ERState) : ERState :=
  if nodeName = "ml_model" then { ml_score := some (1/2) }
  else if nodeName = "llm_model" then { llm_score := some (1/2) }
  else if nodeName = "human_input" then {}
  else if nodeName = "fusion" then
    { fused_prob := some (1/2)
      p_final := some (1/2)
      fusion_decision := some "Error"
      fusion_rationale := some "Fusion failed, using default neutral probability." }
  else if nodeName = "confidence_check" then state
  else if nodeName = "human_review" then
    { fused_prob := some (state.fused_prob.getD (state.p_final.getD (1/2)))
      p_final := some (state.fused_prob.getD (state.p_final.getD (1/2))) }
  else if nodeName = "finalize" then
    { decision := some "UNKNOWN"
      rationale := some s!"Workflow encountered errors. Node {nodeName} failed."
      p_final := some (state.fused_prob.getD (state.p_final.getD (1/2))) }
  else {}

/-- The retry loop of the wrapper (`logging.py` lines 239-303).  `fn i` is
the outcome of the `i`-th 0-based attempt of the wrapped node function;
`remaining` counts the retries still allowed after the current attempt.
Each failed attempt appends a `log_error` record; a failed non-final
attempt sleeps `retry_delay * (attempt + 1)`; the final failure appends the
`<name>_ERROR` record and then either re-raises (critical nodes) or
substitutes the safe default. -/
def wrapperLoop (nodeName : String) (fn : ℕ → Except String ERState)
    (retryDelay : ℚ) (state : ERState) :
    ℕ → ℕ → Except String ERState × List AuditEvent
  | attempt, 0 =>
    match fn attempt with
    | .ok out => (.ok out, [.output nodeName])
    | .error e =>
      if nodeName ∈ criticalNodes then
        (.error e, [.errorLog nodeName, .errorRecord nodeName])
      else
        (.ok (safeDefaultOutput nodeName state), [.errorLog nodeName, .errorRecord nodeName])
  | attempt, r + 1 =>
    match fn attempt with
    | .ok out => (.ok out, [.output nodeName])
    | .error _ =>
      let rest := wrapperLoop nodeName fn retryDelay state (attempt + 1) r
      (rest.1,
       .errorLog nodeName :: .sleep (retryDelay * ((attempt : ℚ) + 1)) :: rest.2)

/-- `make_logged_node` (`logging.py` lines 198-305): emit the
`<name>_INPUT` record, then run the retry loop over `max_retries + 1`
attempts. -/
def make_logged_node (nodeName : String) (fn : ℕ → Except String ERState)
    (maxRetries : ℕ) (retryDelay : ℚ) (state : ERState) :
    Except String ERState × List AuditEvent :=
  let r := wrapperLoop nodeName fn retryDelay state 0 maxRetries
  (r.1, .input nodeName :: r.2)

/-- Number of `<name>_INPUT` records in a trace. -/
def countInput (l : List AuditEvent) : ℕ :=
  l.countP fun e =>
    match e with
    | .input _ => true
    | _ => false

/-- Number of terminal (`<name>_OUTPUT` or `<name>_ERROR`) records. -/
def countTerminal (l : List AuditEvent) : ℕ :=
  l.countP fun e =>
    match e with
    | .output _ => true
    | .errorRecord _ => true
    | _ => false

/-- The backoff delays of a trace, in order. -/
def sleepDurations (l : List AuditEvent) : List ℚ :=
  l.filterMap fun e =>
    match e with
    | .sleep d => some d
    | _ => none

/-! ### Graph wiring (`src/workflow/graph.py`) -/

/-- The data the fetch node resolves for a visit (`database/queries.py`
lines 140-145, minus the execution id bookkeeping). -/
structure FetchOut where
  patient_data : PatientData
  vitals_validated : VitalSigns
  triage_text : String
deriving Repr, DecidableEq

/-- The external collaborators of one run: the resolved record, the two
predictor outcomes, and the fusion agent call outcome. -/
structure PipelineEnv where
  fetched : FetchOut
  mlRaw : Except String ℚ
  llmRaw : Except String ℚ
  agent : Except String FusionOut

/-- Run-entry state: `visit_id` and `human_prompt` only. -/
def initState (visitId : ℤ) (note : String) : ERState where
  visit_id := some visitId
  human_prompt := some note

/-- The post-gate portion of the graph of `build_workflow` (`graph.py`
lines 67-98): fan-out `run_models → {ml_model, llm_model, human_input}`,
barrier join into `fusion`, pass-through `confidence_check`, the
confidence branch into `human_review` or directly `finalize`, ending at
`finalize`.  The three parallel branches write disjoint keys, so their
merge order is immaterial; they are merged in the order of `graph.py`. -/
def pipelineTail (env : PipelineEnv) (s2 : ERState) : ERState × List String :=
  let s3 := mergeState s2 run_models_node
  let s4 := mergeState s3 (ml_model_node env.mlRaw)
  let s5 := mergeState s4 (llm_model_node env.llmRaw)
  let s6 := mergeState s5 human_input_node
  let s7 := mergeState s6 (fusionPartial (fusion_node s6.ml_score s6.llm_score env.agent))
  -- confidence_check_node returns the state unchanged (pass-through)
  let route := conditional_confidence_routing s7
  let s8 := if route = "low_confidence" then mergeState s7 (human_review_node s7) else s7
  (finalize_node s8,
   ["fetch_data", "severity_gate", "run_models", "ml_model", "llm_model",
    "human_input", "fusion", "confidence_check"] ++
   (if route = "low_confidence" then ["human_review"] else []) ++ ["finalize"])

/-- The execution graph of `build_workflow` (`graph.py` lines 24-100) on a
successful fetch: `fetch_data → severity_gate →` either the early exit to
`END`, or the post-gate tail.  Returns the final merged state and the list
of node names executed, in path order. -/
def runPipeline (env : PipelineEnv) (visitId : ℤ) (note : String) :
    ERState × List String :=
  let s0 := initState visitId note
  let s1 := mergeState s0
    { patient_data := some env.fetched.patient_data
      vitals_validated := some env.fetched.vitals_validated
      triage_text := some env.fetched.triage_text }
  let v := s1.vitals_validated.getD {}
  let pd := s1.patient_data.getD {}
  let s2 := mergeState s1 (severity_gate_node v pd)
  if conditional_severity_gate s2 = "end" then
    (s2, ["fetch_data", "severity_gate"])
  else
    pipelineTail env s2

/-! ### Helper lemmas -/

lemma severe_eq_some_true_iff (v : VitalSigns) (pd : PatientData) :
    (severity_gate_node v pd).severe = some true ↔ isSevere v pd = true := by
  by_cases h : isSevere v pd = true
  · simp [severity_gate_node, h]
  · simp only [Bool.not_eq_true] at h
    simp [severity_gate_node, h]

lemma ageBucket_getD_eq_oldest (pd : PatientData) :
    pd.age_bucket.getD "" = "65+" ↔ pd.age_bucket = some "65+" := by
  cases pd.age_bucket <;> simp

lemma criticalEsi_eq_true (pd : PatientData) :
    criticalEsi pd = true ↔ ∃ e, pd.ESI = some e ∧ e ≤ 2 := by
  cases h : pd.ESI <;> simp [criticalEsi, h]

/-! ### Claim theorems -/

/-- Claim C1: `severity_gate_node` sets `severe = true` iff at least one of
oxygen saturation < 88, systolic pressure < 80, respiratory rate > 35 or
< 8, ESI ≤ 2, or (recent 30-day admissions ≥ 2 and age bucket `"65+"` and
one of heart rate > 100, temperature > 38.5 °C, oxygen saturation < 92)
holds, with every missing (`none`) value non-triggering; and whenever it
sets `severe = true` it also sets the final decision key (`decision`, the
state's alias for the spec's `final_decision`) to `"Admit"`, the numeric
probability key (`p_final`, the alias the non-severe path shares with
`fused_prob`) to 1.0, and a rationale built from the `severity_factors`
list, which enumerates exactly the triggered reasons (one entry per
trigger, each triggered reason present). -/
theorem C1_severity_gate_characterization (v : VitalSigns) (pd : PatientData) :
    ((severity_gate_node v pd).severe = some true ↔
      ((∃ o, v.oxygen_saturation = some o ∧ o < 88) ∨
       (∃ b, v.bp_systolic = some b ∧ b < 80) ∨
       (∃ r, v.resp_rate = some r ∧ r > 35) ∨ (∃ r, v.resp_rate = some r ∧ r < 8) ∨
       (∃ e, pd.ESI = some e ∧ e ≤ 2) ∨
       (2 ≤ pd.recent_admissions_30d.getD 0 ∧ pd.age_bucket = some "65+" ∧
        ((∃ h, v.heart_rate = some h ∧ h > 100) ∨
         (∃ t, v.temperature_C = some t ∧ t > (38.5 : ℚ)) ∨
         (∃ o, v.oxygen_saturation = some o ∧ o < 92))))) ∧
    ((severity_gate_node v pd).severe = some true →
      (severity_gate_node v pd).decision = some "Admit" ∧
      (severity_gate_node v pd).p_final = some 1 ∧
      (severity_gate_node v pd).rationale = some (severityRationale v pd) ∧
      (severity_gate_node v pd).severity_factors = some (severityReasons v pd)) ∧
    ((severityReasons v pd).length =
      (if criticalVitals v then 1 else 0) + (if criticalEsi pd then 1 else 0) +
      (if highReadmission pd then 1 else 0) + (if elderlyRisk v pd then 1 else 0)) ∧
    (criticalVitals v = true → "Critical vitals" ∈ severityReasons v pd) ∧
    (∀ e, pd.ESI = some e → criticalEsi pd = true →
      s!"ESI level {e}" ∈ severityReasons v pd) ∧
    (highReadmission pd = true →
      s!"{pd.recent_admissions_30d.getD 0} recent admissions" ∈ severityReasons v pd) ∧
    (elderlyRisk v pd = true → "Elderly with concerning vitals" ∈ severityReasons v pd) := by
  refine ⟨?_, ?_, ?_, ?_, ?_, ?_, ?_⟩
  · rw [severe_eq_some_true_iff]
    simp only [isSevere, criticalVitals, Bool.or_eq_true, Bool.and_eq_true,
      ltOpt_eq_true, gtOpt_eq_true, criticalEsi_eq_true, highReadmission,
      elderlyRisk, ageBucket_getD_eq_oldest, decide_eq_true_eq, ge_iff_le,
      or_assoc, and_assoc]
  · intro h
    rw [severe_eq_some_true_iff] at h
    simp [severity_gate_node, h]
  · cases hesi : pd.ESI <;>
      rcases hcv : criticalVitals v <;> rcases hce : criticalEsi pd <;>
      rcases hhr : highReadmission pd <;> rcases hel : elderlyRisk v pd <;>
      simp_all [severityReasons, criticalEsi]
  · intro h
    simp [severityReasons, h]
  · intro e he hce
    cases hcv : criticalVitals v <;> simp [severityReasons, he, hce, hcv]
  · intro h
    simp [severityReasons, h]
  · intro h
    simp [severityReasons, h]

/-- Witness for C1 at a concrete input: oxygen saturation 85 (all other
values missing) triggers the gate and yields the admit outputs. -/
theorem C1_witness :
    (severity_gate_node { oxygen_saturation := some 85 } {}).severe = some true ∧
    (severity_gate_node { oxygen_saturation := some 85 } {}).decision = some "Admit" ∧
    (severity_gate_node { oxygen_saturation := some 85 } {}).p_final = some 1 := by
  have h := C1_severity_gate_characterization { oxygen_saturation := some 85 } {}
  have hsev : (severity_gate_node { oxygen_saturation := some 85 } {}).severe = some true :=
    h.1.mpr (Or.inl ⟨85, rfl, by norm_num⟩)
  exact ⟨hsev, (h.2.1 hsev).1, (h.2.1 hsev).2.1⟩

/-- Claim C2: whenever the severity gate fires (`severe = true`), the
severity-gate router takes the early-exit branch (`"end"`, wired to `END`),
the executed-node trace of the run stops at
`["fetch_data", "severity_gate"]` — so neither predictor node
(`ml_model`, `llm_model`, `human_input`) nor `fusion` ever executes — and
none of `ml_score`, `llm_score`, `fusion_decision`, `fusion_rationale`
(nor `fused_prob`) is ever populated in that run's state. -/
theorem C2_severe_early_exit_exclusive (env : PipelineEnv) (visitId : ℤ) (note : String)
    (h : isSevere env.fetched.vitals_validated env.fetched.patient_data = true) :
    (∀ s : ERState, s.severe = some true → conditional_severity_gate s = "end") ∧
    (runPipeline env visitId note).2 = ["fetch_data", "severity_gate"] ∧
    (runPipeline env visitId note).1.ml_score = none ∧
    (runPipeline env visitId note).1.llm_score = none ∧
    (runPipeline env visitId note).1.fusion_decision = none ∧
    (runPipeline env visitId note).1.fusion_rationale = none ∧
    (runPipeline env visitId note).1.fused_prob = none ∧
    (runPipeline env visitId note).1.severe = some true ∧
    (runPipeline env visitId note).1.decision = some "Admit" ∧
    (runPipeline env visitId note).1.p_final = some 1 := by
  constructor
  · intro s hs
    simp [conditional_severity_gate, hs]
  · simp [runPipeline, conditional_severity_gate, mergeState, severity_gate_node,
      initState, h]

/-- Witness for C2: the spec's scenario — oxygen saturation 85, everything
else normal/absent — exits after the gate with no predictor or fusion
field populated. -/
theorem C2_witness :
    (runPipeline
        ⟨⟨{}, { oxygen_saturation := some 85 }, ""⟩, .ok (1/2), .ok (1/2), .error "x"⟩
        1 "note").2 = ["fetch_data", "severity_gate"] ∧
    (runPipeline
        ⟨⟨{}, { oxygen_saturation := some 85 }, ""⟩, .ok (1/2), .ok (1/2), .error "x"⟩
        1 "note").1.ml_score = none := by
  have h := C2_severe_early_exit_exclusive
    ⟨⟨{}, { oxygen_saturation := some 85 }, ""⟩, .ok (1/2), .ok (1/2), .error "x"⟩
    1 "note" (by decide)
  exact ⟨h.2.1, h.2.2.1⟩

lemma clamp01_nonneg (x : ℚ) : 0 ≤ clamp01 x := by
  simp [clamp01]

lemma clamp01_le_one (x : ℚ) : clamp01 x ≤ 1 := by
  simp [clamp01]

lemma ite_admit_discharge_ne_error (c : Prop) [Decidable c] :
    (if c then "Admit" else "Discharge") ≠ "Error" := by
  split <;> simp

/-- The numeric weighted average computed by `fusion_node`. -/
def fusedProbOf (mlScore llmScore : Option ℚ) : ℚ :=
  (1/2 : ℚ) * clamp01 (mlScore.getD (1/2)) + (1/2 : ℚ) * clamp01 (llmScore.getD (1/2))

lemma fusion_node_error (mlS llmS : Option ℚ) (e : String) :
    fusion_node mlS llmS (.error e) =
      ⟨fusedProbOf mlS llmS, fusedProbOf mlS llmS,
       if fusedProbOf mlS llmS ≥ 1/2 then "Admit" else "Discharge",
       fusionFallbackRationale (fusedProbOf mlS llmS)
         (if fusedProbOf mlS llmS ≥ 1/2 then "Admit" else "Discharge")⟩ := by
  simp [fusion_node, fusedProbOf]

lemma fusion_node_ok_repair (mlS llmS : Option ℚ) (j : FusionOut)
    (h : j.decision = none ∨ j.decision = some "Error") :
    fusion_node mlS llmS (.ok j) =
      ⟨fusedProbOf mlS llmS, fusedProbOf mlS llmS,
       if clamp01 (mlS.getD (1/2)) > 7/10 ∨ clamp01 (llmS.getD (1/2)) > 7/10
         then "Admit" else "Discharge",
       j.rationale.getD
         s!"Inferred decision from probabilities (ML: {clamp01 (mlS.getD (1/2))}, LLM: {clamp01 (llmS.getD (1/2))})"⟩ := by
  rcases h with h | h <;>
    simp [fusion_node, fusedProbOf, h, ite_admit_discharge_ne_error]

lemma fusion_node_ok_normal (mlS llmS : Option ℚ) (j : FusionOut) (d : String)
    (hd : j.decision = some d) (hne : d ≠ "Error") :
    fusion_node mlS llmS (.ok j) =
      ⟨fusedProbOf mlS llmS, fusedProbOf mlS llmS, d,
       j.rationale.getD
         "No rationale returned by fusion agent. Using weighted average of ML and LLM scores."⟩ := by
  simp [fusion_node, fusedProbOf, hd, hne]

lemma fusedProbOf_mem_unit (mlS llmS : Option ℚ) :
    0 ≤ fusedProbOf mlS llmS ∧ fusedProbOf mlS llmS ≤ 1 := by
  have h1 := clamp01_nonneg (mlS.getD (1/2))
  have h2 := clamp01_le_one (mlS.getD (1/2))
  have h3 := clamp01_nonneg (llmS.getD (1/2))
  have h4 := clamp01_le_one (llmS.getD (1/2))
  constructor <;> (simp only [fusedProbOf]; linarith)

/-- Claim C3: `conditional_confidence_routing` returns `"low_confidence"`
whenever `ml_score` or `llm_score` is missing; otherwise, with
`gap = |ml - llm|`, `avg = (ml + llm)/2` and `risk` the patient risk score,
it returns `"high_confidence"` iff
`(risk > 0.5 ∧ gap < 0.15 ∧ avg > 0.65) ∨ (risk ≤ 0.5 ∧ gap < 0.25 ∧ avg > 0.75)`,
and `"low_confidence"` in every other case (expressed as the if-then-else
equation, which forces exactly those two outputs). -/
theorem C3_confidence_routing_characterization (s : ERState) :
    ((s.ml_score = none ∨ s.llm_score = none) →
      conditional_confidence_routing s = "low_confidence") ∧
    (∀ ml llm, s.ml_score = some ml → s.llm_score = some llm →
      conditional_confidence_routing s =
        (if ((calculate_patient_risk_score (s.patient_data.getD {}) > 1/2 ∧
              |ml - llm| < 3/20 ∧ (ml + llm) / 2 > 13/20) ∨
             (calculate_patient_risk_score (s.patient_data.getD {}) ≤ 1/2 ∧
              |ml - llm| < 1/4 ∧ (ml + llm) / 2 > 3/4))
         then "high_confidence" else "low_confidence")) := by
  constructor
  · intro h
    rcases h with h | h <;> cases hm : s.ml_score <;> cases hl : s.llm_score <;>
      simp_all [conditional_confidence_routing]
  · intro ml llm hm hl
    simp only [conditional_confidence_routing, hm, hl, rabs_eq_abs]
    refine if_congr ?_ rfl rfl
    by_cases hr : calculate_patient_risk_score (s.patient_data.getD {}) > 1/2
    · rw [if_pos hr, if_pos hr]
      rw [gt_iff_lt, one_div] at hr
      simp [hr, not_le.mpr hr]
    · rw [if_neg hr, if_neg hr]
      rw [gt_iff_lt, one_div] at hr
      simp [hr, not_lt.mp hr]

/-- Witness for C3: the spec scenario — structured score 0.9, text score
0.85, low patient risk — routes to `"high_confidence"`. -/
theorem C3_witness :
    conditional_confidence_routing
      { ml_score := some (9/10)
        llm_score := some (17/20) } = "high_confidence" := by
  have h := (C3_confidence_routing_characterization
      { ml_score := some (9/10)
        llm_score := some (17/20) }).2 (9/10) (17/20) rfl rfl
  rw [h]
  rw [if_pos]
  right
  refine ⟨?_, ?_, ?_⟩
  · simp [calculate_patient_risk_score, ageRisk, esiRisk, readmissionRisk, historyRisk,
      vitalsRisk, rmin]
    norm_num
  · rw [show (9 : ℚ)/10 - 17/20 = 1/20 by norm_num, abs_of_pos (by norm_num)]
    norm_num
  · norm_num

/-- Counterexample to claim C4 as stated: with structured score 0.8 and
text score 0.1, the weighted average is 0.45 < 0.5, so the claim demands
`"Discharge"` whenever the generative call "fails or yields decision
Error"; but when the call *returns* the decision `"Error"` (the
exhausted-retries dict of `run_fusion_agent`, no exception), `fusion_node`
repairs the decision with the `> 0.7`-inference rule of `nodes.py`
lines 268-275 and returns `"Admit"`. -/
theorem C4_counterexample :
    (fusion_node (some (4/5)) (some (1/10))
        (.ok { decision := some "Error", rationale := some "agent failure" })).fusion_decision
      = "Admit" ∧
    (fusion_node (some (4/5)) (some (1/10))
        (.ok { decision := some "Error", rationale := some "agent failure" })).fused_prob
      < 1/2 := by
  rw [fusion_node_ok_repair (some (4/5)) (some (1/10))
    { decision := some "Error", rationale := some "agent failure" } (Or.inr rfl)]
  constructor
  · rw [if_pos]
    left
    rw [show clamp01 ((some ((4:ℚ)/5)).getD (1/2)) = 4/5 by
      simp [clamp01]; norm_num]
    norm_num
  · rw [show fusedProbOf (some ((4:ℚ)/5)) (some ((1:ℚ)/10)) = 9/20 by
      simp [fusedProbOf, clamp01]; norm_num]
    norm_num

/-- Claim C4 (amended): for every input, `fusion_node` defaults each
missing score to 0.5, clamps both into [0,1], and always returns
`fused_prob = 0.5·ml + 0.5·llm` of the clamped scores, so `fused_prob` lies
in [0,1] for all inputs (including out-of-range predictor outputs); and
whenever the generative fusion call *raises*, the categorical decision is
`"Admit"` iff `fused_prob ≥ 0.5` and `"Discharge"` otherwise, with the
weighted-average fallback rationale.  (Amendment forced by
`C4_counterexample`: when the call instead *returns* decision `"Error"`
without raising, the decision is repaired as `"Admit"` iff either clamped
score exceeds 0.7, not from the weighted average.) -/
theorem C4_fusion_numeric_law (mlS llmS : Option ℚ) (agent : Except String FusionOut) :
    (fusion_node mlS llmS agent).fused_prob =
      (1/2 : ℚ) * clamp01 (mlS.getD (1/2)) + (1/2 : ℚ) * clamp01 (llmS.getD (1/2)) ∧
    0 ≤ (fusion_node mlS llmS agent).fused_prob ∧
    (fusion_node mlS llmS agent).fused_prob ≤ 1 ∧
    (fusion_node mlS llmS agent).p_final = (fusion_node mlS llmS agent).fused_prob ∧
    (∀ e, agent = .error e →
      (fusion_node mlS llmS agent).fusion_decision =
        (if (fusion_node mlS llmS agent).fused_prob ≥ 1/2 then "Admit" else "Discharge") ∧
      (fusion_node mlS llmS agent).fusion_rationale =
        fusionFallbackRationale (fusion_node mlS llmS agent).fused_prob
          (fusion_node mlS llmS agent).fusion_decision) ∧
    (∀ j, agent = .ok j → (j.decision = none ∨ j.decision = some "Error") →
      (fusion_node mlS llmS agent).fusion_decision =
        (if clamp01 (mlS.getD (1/2)) > 7/10 ∨ clamp01 (llmS.getD (1/2)) > 7/10
         then "Admit" else "Discharge")) := by
  have hfp : (fusion_node mlS llmS agent).fused_prob = fusedProbOf mlS llmS := by
    cases agent with
    | error e => rw [fusion_node_error]
    | ok j =>
      rcases hj : j.decision with _ | d
      · rw [fusion_node_ok_repair mlS llmS j (Or.inl hj)]
      · by_cases hd : d = "Error"
        · subst hd
          rw [fusion_node_ok_repair mlS llmS j (Or.inr hj)]
        · rw [fusion_node_ok_normal mlS llmS j d hj hd]
  have hpf : (fusion_node mlS llmS agent).p_final = fusedProbOf mlS llmS := by
    cases agent with
    | error e => rw [fusion_node_error]
    | ok j =>
      rcases hj : j.decision with _ | d
      · rw [fusion_node_ok_repair mlS llmS j (Or.inl hj)]
      · by_cases hd : d = "Error"
        · subst hd
          rw [fusion_node_ok_repair mlS llmS j (Or.inr hj)]
        · rw [fusion_node_ok_normal mlS llmS j d hj hd]
  have hb := fusedProbOf_mem_unit mlS llmS
  refine ⟨by rw [hfp]; rfl, by rw [hfp]; exact hb.1, by rw [hfp]; exact hb.2,
    by rw [hfp, hpf], ?_, ?_⟩
  · intro e he
    subst he
    rw [fusion_node_error]
    exact ⟨rfl, rfl⟩
  · intro j hj hdec
    subst hj
    rw [fusion_node_ok_repair mlS llmS j hdec]

/-- Witness for C4 at concrete inputs: out-of-range scores 1.7 and −0.2
clamp to 1 and 0, the fused probability is 0.5, and a raising agent call
yields the weighted-average decision `"Admit"` (0.5 ≥ 0.5). -/
theorem C4_witness :
    (fusion_node (some (17/10)) (some (-1/5)) (.error "model load failed")).fused_prob = 1/2 ∧
    (fusion_node (some (17/10)) (some (-1/5)) (.error "model load failed")).fusion_decision
      = "Admit" := by
  have h := C4_fusion_numeric_law (some (17/10)) (some (-1/5)) (.error "model load failed")
  have hv : (fusion_node (some (17/10)) (some (-1/5)) (.error "model load failed")).fused_prob
      = 1/2 := by
    rw [h.1]
    rw [show clamp01 ((some ((17:ℚ)/10)).getD (1/2)) = 1 by simp [clamp01]; norm_num]
    rw [show clamp01 ((some (-(1:ℚ)/5)).getD (1/2)) = 0 by simp [clamp01]; norm_num]
    norm_num
  refine ⟨hv, ?_⟩
  rw [(h.2.2.2.2.1 "model load failed" rfl).1, hv]
  norm_num

lemma normalizeParsed_decision (ml llm : ℚ) (j : FusionOut) (d : String) :
    (normalizeParsed ml llm j d).decision = some "Admit" ∨
    (normalizeParsed ml llm j d).decision = some "Discharge" := by
  simp only [normalizeParsed]
  split_ifs <;> simp

lemma fusionAgentLoop_decision (ml llm : ℚ) :
    ∀ (attempts : List AgentAttempt) (j : FusionOut),
      fusionAgentLoop ml llm attempts = some j →
      (j.decision = some "Admit" ∨ j.decision = some "Discharge") := by
  intro attempts
  induction attempts with
  | nil => intro j h; simp [fusionAgentLoop] at h
  | cons a rest ih =>
    intro j h
    cases a with
    | raised e => exact ih j (by simpa [fusionAgentLoop] using h)
    | unparsable => exact ih j (by simpa [fusionAgentLoop] using h)
    | parsed p =>
      rcases hd : p.decision with _ | d
      · exact ih j (by simpa [fusionAgentLoop, hd] using h)
      · have : some (normalizeParsed ml llm p d) = some j := by
          simpa [fusionAgentLoop, hd] using h
        rw [← Option.some_inj.mp this]
        exact normalizeParsed_decision ml llm p d

lemma run_fusion_agent_decision_range (ml llm : ℚ) (attempts : List AgentAttempt) :
    (run_fusion_agent ml llm attempts).decision = some "Admit" ∨
    (run_fusion_agent ml llm attempts).decision = some "Discharge" ∨
    (run_fusion_agent ml llm attempts).decision = some "Error" := by
  rcases hl : fusionAgentLoop ml llm attempts with _ | j
  · right; right
    simp [run_fusion_agent, hl]
  · rcases fusionAgentLoop_decision ml llm attempts j hl with h | h
    · left
      simpa [run_fusion_agent, hl] using h
    · right; left
      simpa [run_fusion_agent, hl] using h

/-- Counterexample to claim C10 as stated: when the agent *reports*
decision `"Error"` (without raising) with structured score 0.8 and text
score 0.1, `fusion_node` returns `"Admit"`, whereas the claimed
"numeric weighted-average fallback" would derive `"Discharge"`
(fused probability 0.45 < 0.5) — so the replacement is not via the
weighted average in that case. -/
theorem C10_counterexample :
    (fusion_node (some (4/5)) (some (1/10))
        (.ok { decision := some "Error", rationale := some "failed" })).fusion_decision
      = "Admit" ∧
    (if (fusion_node (some (4/5)) (some (1/10))
          (.ok { decision := some "Error", rationale := some "failed" })).fused_prob ≥ (1/2 : ℚ)
       then "Admit" else "Discharge") = "Discharge" := by
  rw [fusion_node_ok_repair (some (4/5)) (some (1/10))
    { decision := some "Error", rationale := some "failed" } (Or.inr rfl)]
  have hml : clamp01 ((some ((4:ℚ)/5)).getD (1/2)) = 4/5 := by
    simp [clamp01]; norm_num
  have hll : clamp01 ((some ((1:ℚ)/10)).getD (1/2)) = 1/10 := by
    simp [clamp01]; norm_num
  constructor
  · rw [if_pos]
    left
    rw [hml]
    norm_num
  · rw [if_neg]
    show ¬ fusedProbOf (some ((4:ℚ)/5)) (some ((1:ℚ)/10)) ≥ 1/2
    rw [show fusedProbOf (some ((4:ℚ)/5)) (some ((1:ℚ)/10)) = 9/20 by
      simp only [fusedProbOf]; rw [hml, hll]; norm_num]
    norm_num

/-- Claim C10 (amended): every completed `fusion_node` invocation whose
agent call either raises or returns an output shaped like
`run_fusion_agent`'s (decision present as `"Admit"`, `"Discharge"` or
`"Error"`, or missing) has `fusion_decision ∈ {"Admit", "Discharge"}`,
never `"Error"`: a raised call is replaced through the weighted average
against 0.5, a reported `"Error"` (or missing) decision through the
`> 0.7` inference rule; `run_fusion_agent` itself only ever returns
decisions in `{"Admit", "Discharge", "Error"}`, so the composed call
always completes with `"Admit"` or `"Discharge"`; the plain state value
`fusion_decision = "Error"` therefore enters a run only through the
wrapper's safe default for the exhausted `fusion` node. -/
theorem C10_fusion_decision_invariant :
    (∀ (ml llm : ℚ) (attempts : List AgentAttempt),
      (run_fusion_agent ml llm attempts).decision = some "Admit" ∨
      (run_fusion_agent ml llm attempts).decision = some "Discharge" ∨
      (run_fusion_agent ml llm attempts).decision = some "Error") ∧
    (∀ (mlS llmS : Option ℚ) (agent : Except String FusionOut),
      (∀ j, agent = .ok j →
        (j.decision = none ∨ j.decision = some "Admit" ∨
         j.decision = some "Discharge" ∨ j.decision = some "Error")) →
      (fusion_node mlS llmS agent).fusion_decision = "Admit" ∨
      (fusion_node mlS llmS agent).fusion_decision = "Discharge") ∧
    (∀ (ml llm : ℚ) (attempts : List AgentAttempt) (mlS llmS : Option ℚ),
      (fusion_node mlS llmS (.ok (run_fusion_agent ml llm attempts))).fusion_decision = "Admit" ∨
      (fusion_node mlS llmS (.ok (run_fusion_agent ml llm attempts))).fusion_decision
        = "Discharge") ∧
    (∀ s : ERState, (safeDefaultOutput "fusion" s).fusion_decision = some "Error") := by
  have hnode : ∀ (mlS llmS : Option ℚ) (agent : Except String FusionOut),
      (∀ j, agent = .ok j →
        (j.decision = none ∨ j.decision = some "Admit" ∨
         j.decision = some "Discharge" ∨ j.decision = some "Error")) →
      (fusion_node mlS llmS agent).fusion_decision = "Admit" ∨
      (fusion_node mlS llmS agent).fusion_decision = "Discharge" := by
    intro mlS llmS agent hshape
    cases agent with
    | error e =>
      rw [fusion_node_error]
      by_cases h : fusedProbOf mlS llmS ≥ 1/2
      · left
        show (if fusedProbOf mlS llmS ≥ 1/2 then "Admit" else "Discharge") = "Admit"
        exact if_pos h
      · right
        show (if fusedProbOf mlS llmS ≥ 1/2 then "Admit" else "Discharge") = "Discharge"
        exact if_neg h
    | ok j =>
      rcases hshape j rfl with hd | hd | hd | hd
      · rw [fusion_node_ok_repair mlS llmS j (Or.inl hd)]
        by_cases h : clamp01 (mlS.getD (1/2)) > 7/10 ∨ clamp01 (llmS.getD (1/2)) > 7/10
        · left
          show (if clamp01 (mlS.getD (1/2)) > 7/10 ∨ clamp01 (llmS.getD (1/2)) > 7/10
            then "Admit" else "Discharge") = "Admit"
          exact if_pos h
        · right
          show (if clamp01 (mlS.getD (1/2)) > 7/10 ∨ clamp01 (llmS.getD (1/2)) > 7/10
            then "Admit" else "Discharge") = "Discharge"
          exact if_neg h
      · left
        rw [fusion_node_ok_normal mlS llmS j "Admit" hd (by simp)]
      · right
        rw [fusion_node_ok_normal mlS llmS j "Discharge" hd (by simp)]
      · rw [fusion_node_ok_repair mlS llmS j (Or.inr hd)]
        by_cases h : clamp01 (mlS.getD (1/2)) > 7/10 ∨ clamp01 (llmS.getD (1/2)) > 7/10
        · left
          show (if clamp01 (mlS.getD (1/2)) > 7/10 ∨ clamp01 (llmS.getD (1/2)) > 7/10
            then "Admit" else "Discharge") = "Admit"
          exact if_pos h
        · right
          show (if clamp01 (mlS.getD (1/2)) > 7/10 ∨ clamp01 (llmS.getD (1/2)) > 7/10
            then "Admit" else "Discharge") = "Discharge"
          exact if_neg h
  refine ⟨run_fusion_agent_decision_range, hnode, ?_, ?_⟩
  · intro ml llm attempts mlS llmS
    refine hnode mlS llmS (.ok (run_fusion_agent ml llm attempts)) ?_
    intro j hj
    have := run_fusion_agent_decision_range ml llm attempts
    rw [Except.ok.injEq] at hj
    subst hj
    tauto
  · intro s
    simp [safeDefaultOutput]

/-- Witness for C10: a raising agent call with both scores missing
completes with decision `"Admit"` (fused probability 0.5 ≥ 0.5), not
`"Error"`. -/
theorem C10_witness :
    (fusion_node none none (.error "outage")).fusion_decision = "Admit" ∨
    (fusion_node none none (.error "outage")).fusion_decision = "Discharge" := by
  exact C10_fusion_decision_invariant.2.1 none none (.error "outage")
    (fun j hj => by cases hj)

lemma pick_eq_none_iff {α : Type} (p s : Option α) :
    pick p s = none ↔ p = none ∧ s = none := by
  cases p <;> simp

lemma thresholdPair_fst (f : ℚ) :
    (thresholdPair f).1 = (if f ≥ ADMISSION_THRESHOLD then "ADMIT" else "DISCHARGE") := by
  by_cases h : f ≥ ADMISSION_THRESHOLD
  · rw [if_pos h]
    simp [thresholdPair, h]
  · rw [if_neg h]
    simp [thresholdPair, h]

lemma finalize_node_final_decision_eq_decision (s : ERState) :
    (finalize_node s).decision = (finalize_node s).final_decision := by
  simp [finalize_node]

lemma finalize_not_unknown (s : ERState) (f : ℚ)
    (hp : pick s.fused_prob s.p_final = some f) :
    (finalize_node s).final_decision = some "ADMIT" ∨
    (finalize_node s).final_decision = some "DISCHARGE" := by
  have hth : (thresholdPair f).1 = "ADMIT" ∨ (thresholdPair f).1 = "DISCHARGE" := by
    rw [thresholdPair_fst]
    by_cases h : f ≥ ADMISSION_THRESHOLD
    · left; exact if_pos h
    · right; exact if_neg h
  rcases hd : s.fusion_decision with _ | d
  · simp only [finalize_node, hp, hd]
    simpa using hth
  · by_cases hne : d ≠ "" ∧ d ≠ "Error"
    · simp only [finalize_node, hp, hd, if_pos hne]
      by_cases h1 : pyLower d = "admit" ∨ pyLower d = "admission"
      · left; simp [h1]
      · by_cases h2 : pyLower d = "discharge" ∨ pyLower d = "discharged"
        · right; simp [h1, h2]
        · simpa [h1, h2] using hth
    · simp only [finalize_node, hp, hd, if_neg hne]
      simpa using hth

lemma severity_gate_decision_cases (v : VitalSigns) (pd : PatientData) :
    (severity_gate_node v pd).decision = some "Admit" ∨
    (severity_gate_node v pd).decision = none := by
  by_cases h : isSevere v pd = true
  · left; simp [severity_gate_node, h]
  · right
    simp only [Bool.not_eq_true] at h
    simp [severity_gate_node, h]

lemma mergeState_fusionPartial_fused (base : ERState) (fo : FusionNodeOut) :
    (mergeState base (fusionPartial fo)).fused_prob = some fo.fused_prob := by
  simp [mergeState, fusionPartial]

lemma human_review_keeps_fused (s : ERState) (f : ℚ) (h : s.fused_prob = some f) :
    ∃ g, (mergeState s (human_review_node s)).fused_prob = some g := by
  cases ho : s.human_override with
  | some o => exact ⟨o, by simp [mergeState, human_review_node, ho]⟩
  | none => exact ⟨f, by simp [mergeState, human_review_node, ho, h]⟩

lemma pipelineTail_shape (env : PipelineEnv) (s2 : ERState) :
    ∃ s8 f, (pipelineTail env s2).1 = finalize_node s8 ∧ s8.fused_prob = some f := by
  simp only [pipelineTail]
  set s6 := mergeState (mergeState (mergeState (mergeState s2 run_models_node)
    (ml_model_node env.mlRaw)) (llm_model_node env.llmRaw)) human_input_node with hs6
  set fo := fusion_node s6.ml_score s6.llm_score env.agent with hfo
  set s7 := mergeState s6 (fusionPartial fo) with hs7
  have h7 : s7.fused_prob = some fo.fused_prob := mergeState_fusionPartial_fused s6 fo
  by_cases hc : conditional_confidence_routing s7 = "low_confidence"
  · rw [if_pos hc]
    obtain ⟨g, hg⟩ := human_review_keeps_fused s7 fo.fused_prob h7
    exact ⟨mergeState s7 (human_review_node s7), g, rfl, hg⟩
  · rw [if_neg hc]
    exact ⟨s7, fo.fused_prob, rfl, h7⟩

lemma runPipeline_no_unknown (env : PipelineEnv) (visitId : ℤ) (note : String) :
    (runPipeline env visitId note).1.final_decision ≠ some "UNKNOWN" ∧
    (runPipeline env visitId note).1.decision ≠ some "UNKNOWN" := by
  by_cases hs : isSevere env.fetched.vitals_validated env.fetched.patient_data = true
  · simp [runPipeline, conditional_severity_gate, mergeState, severity_gate_node,
      initState, hs]
  · simp only [Bool.not_eq_true] at hs
    have hres : (runPipeline env visitId note).1 =
        (pipelineTail env (mergeState
          (mergeState (initState visitId note)
            { patient_data := some env.fetched.patient_data
              vitals_validated := some env.fetched.vitals_validated
              triage_text := some env.fetched.triage_text })
          (severity_gate_node env.fetched.vitals_validated env.fetched.patient_data))).1 := by
      simp [runPipeline, conditional_severity_gate, mergeState, severity_gate_node,
        initState, hs]
    obtain ⟨s8, f, hfin, hfp⟩ := pipelineTail_shape env (mergeState
      (mergeState (initState visitId note)
        { patient_data := some env.fetched.patient_data
          vitals_validated := some env.fetched.vitals_validated
          triage_text := some env.fetched.triage_text })
      (severity_gate_node env.fetched.vitals_validated env.fetched.patient_data))
    rw [hres, hfin]
    have hp : pick s8.fused_prob s8.p_final = some f := by
      rw [hfp]
      rfl
    rcases finalize_not_unknown s8 f hp with h | h <;>
      rw [finalize_node_final_decision_eq_decision, h] <;> simp

/-- Claim C6: `finalize_node` produces `"UNKNOWN"` iff neither `fused_prob`
nor `p_final` carries a numeric probability; within the pipeline model this
is the only UNKNOWN source — every completed run's decision is never
`"UNKNOWN"` (the gate's early exit yields `"Admit"`, and a run that reaches
`finalize` always has a numeric probability).  When a non-empty,
non-`"Error"` fusion decision is present it is used verbatim, normalized to
`"ADMIT"`/`"DISCHARGE"` through the recognized synonym lists, with the
fusion rationale preferred when non-blank; otherwise the decision is
`"ADMIT"` iff the numeric probability ≥ the global threshold 0.5. -/
theorem C6_finalize_decision_precedence (s : ERState) :
    ((finalize_node s).final_decision = some "UNKNOWN" ↔
      (s.fused_prob = none ∧ s.p_final = none)) ∧
    ((finalize_node s).decision = (finalize_node s).final_decision) ∧
    (∀ f d, pick s.fused_prob s.p_final = some f → s.fusion_decision = some d →
      d ≠ "" → d ≠ "Error" →
      ((pyLower d = "admit" ∨ pyLower d = "admission") →
        (finalize_node s).final_decision = some "ADMIT") ∧
      ((pyLower d = "discharge" ∨ pyLower d = "discharged") →
        (finalize_node s).final_decision = some "DISCHARGE") ∧
      (pyStrip (s.fusion_rationale.getD "") ≠ "" →
        (finalize_node s).rationale =
          some (fusionDecisionRationale d (s.fusion_rationale.getD "")))) ∧
    (∀ f, pick s.fused_prob s.p_final = some f →
      (s.fusion_decision = none ∨ s.fusion_decision = some "" ∨
       s.fusion_decision = some "Error") →
      (finalize_node s).final_decision =
        some (if f ≥ ADMISSION_THRESHOLD then "ADMIT" else "DISCHARGE")) ∧
    (∀ (env : PipelineEnv) (visitId : ℤ) (note : String),
      (runPipeline env visitId note).1.final_decision ≠ some "UNKNOWN" ∧
      (runPipeline env visitId note).1.decision ≠ some "UNKNOWN") := by
  refine ⟨?_, finalize_node_final_decision_eq_decision s, ?_, ?_, runPipeline_no_unknown⟩
  · constructor
    · intro h
      rcases hp : pick s.fused_prob s.p_final with _ | f
      · exact (pick_eq_none_iff s.fused_prob s.p_final).mp hp
      · rcases finalize_not_unknown s f hp with h2 | h2 <;> rw [h] at h2 <;>
          exact absurd (Option.some_inj.mp h2) (by decide)
    · intro h
      have hp : pick s.fused_prob s.p_final = none :=
        (pick_eq_none_iff s.fused_prob s.p_final).mpr h
      simp [finalize_node, hp]
  · intro f d hp hd hne1 hne2
    have hcond : d ≠ "" ∧ d ≠ "Error" := ⟨hne1, hne2⟩
    refine ⟨?_, ?_, ?_⟩
    · intro h1
      simp [finalize_node, hp, hd, hcond, h1]
    · intro h2
      by_cases h1 : pyLower d = "admit" ∨ pyLower d = "admission"
      · rcases h1 with h1 | h1 <;> rcases h2 with h2 | h2 <;>
          rw [h1] at h2 <;> simp at h2
      · simp [finalize_node, hp, hd, hcond, h1, h2]
    · intro h3
      by_cases h1 : pyLower d = "admit" ∨ pyLower d = "admission" <;>
        by_cases h2 : pyLower d = "discharge" ∨ pyLower d = "discharged" <;>
        simp [finalize_node, hp, hd, hcond, h1, h2, h3]
  · intro f hp hd
    have hth := thresholdPair_fst f
    rcases hd with hd | hd | hd
    · rw [← hth]
      simp [finalize_node, hp, hd]
    · rw [← hth]
      simp [finalize_node, hp, hd]
    · rw [← hth]
      simp [finalize_node, hp, hd]

/-- Witness for C6: a state with no numeric probability finalizes to
`"UNKNOWN"`, and one with probability 0.6 and fusion decision `"Admit"`
finalizes to `"ADMIT"`. -/
theorem C6_witness :
    (finalize_node {}).final_decision = some "UNKNOWN" ∧
    (finalize_node
      { fused_prob := some (3/5)
        fusion_decision := some "Admit" }).final_decision = some "ADMIT" := by
  constructor
  · exact (C6_finalize_decision_precedence {}).1.mpr ⟨rfl, rfl⟩
  · exact ((C6_finalize_decision_precedence
      { fused_prob := some (3/5)
        fusion_decision := some "Admit" }).2.2.1 (3/5) "Admit" rfl rfl
        (by decide) (by decide)).1 (Or.inl (by decide))

lemma wrapperLoop_allfail (nodeName : String) (fn : ℕ → Except String ERState)
    (d : ℚ) (state : ERState) (errs : ℕ → String) :
    ∀ (r j : ℕ), (∀ i, i ≤ r → fn (j + i) = .error (errs (j + i))) →
      (wrapperLoop nodeName fn d state j r).1 =
        (if nodeName ∈ criticalNodes then Except.error (errs (j + r))
         else Except.ok (safeDefaultOutput nodeName state)) := by
  intro r
  induction r with
  | zero =>
    intro j h
    have h0 : fn j = .error (errs j) := by simpa using h 0 (le_refl 0)
    by_cases hc : nodeName ∈ criticalNodes
    · simp [wrapperLoop, h0, hc]
    · simp [wrapperLoop, h0, hc]
  | succ r ih =>
    intro j h
    have h0 : fn j = .error (errs j) := by simpa using h 0 (by omega)
    have hrest := ih (j + 1) (by
      intro i hi
      have := h (i + 1) (by omega)
      simpa [Nat.add_assoc, Nat.add_comm 1 i] using this)
    have hj : j + 1 + r = j + (r + 1) := by omega
    rw [hj] at hrest
    simp [wrapperLoop, h0, hrest]

/-- Claim C5: when every one of the `maxRetries + 1` attempts of a wrapped
node fails, the wrapper re-raises the last exception for the critical
nodes `fetch_data` and `severity_gate`, and for every other node returns
the fixed safe-default partial state keyed by node name — in particular
`{llm_score: 0.5}` for the text-signal node, `{ml_score: 0.5}` for the
structured node, probability 0.5 with decision `"Error"` and an
explanatory rationale for the fusion node, and decision `"UNKNOWN"` for
the finalize node. -/
theorem C5_exhaustion_policy (nodeName : String) (fn : ℕ → Except String ERState)
    (maxRetries : ℕ) (d : ℚ) (state : ERState) (errs : ℕ → String)
    (h : ∀ i, i ≤ maxRetries → fn i = .error (errs i)) :
    ((nodeName = "fetch_data" ∨ nodeName = "severity_gate") →
      (make_logged_node nodeName fn maxRetries d state).1 = .error (errs maxRetries)) ∧
    (¬(nodeName = "fetch_data" ∨ nodeName = "severity_gate") →
      (make_logged_node nodeName fn maxRetries d state).1 =
        .ok (safeDefaultOutput nodeName state)) ∧
    safeDefaultOutput "ml_model" state = { ml_score := some (1/2) } ∧
    safeDefaultOutput "llm_model" state = { llm_score := some (1/2) } ∧
    safeDefaultOutput "fusion" state =
      { fused_prob := some (1/2)
        p_final := some (1/2)
        fusion_decision := some "Error"
        fusion_rationale := some "Fusion failed, using default neutral probability." } ∧
    (safeDefaultOutput "finalize" state).decision = some "UNKNOWN" ∧
    (safeDefaultOutput "finalize" state).rationale =
      some "Workflow encountered errors. Node finalize failed." := by
  have hmem : nodeName ∈ criticalNodes ↔
      (nodeName = "fetch_data" ∨ nodeName = "severity_gate") := by
    simp [criticalNodes]
  have hloop := wrapperLoop_allfail nodeName fn d state errs maxRetries 0
    (by intro i hi; simpa using h i hi)
  rw [Nat.zero_add] at hloop
  refine ⟨?_, ?_, ?_, ?_, ?_, ?_, ?_⟩
  · intro hc
    have : nodeName ∈ criticalNodes := hmem.mpr hc
    simp [make_logged_node, hloop, this]
  · intro hc
    have : nodeName ∉ criticalNodes := fun hmem2 => hc (hmem.mp hmem2)
    simp [make_logged_node, hloop, this]
  · rfl
  · rfl
  · rfl
  · rfl
  · rfl

/-- Witness for C5: a permanently failing `llm_model` node with one retry
degrades to the safe default `{llm_score := 0.5}`, and a permanently
failing `fetch_data` node propagates its error. -/
theorem C5_witness :
    (make_logged_node "llm_model" (fun _ => .error "downstream outage") 1 (1/2) {}).1 =
      .ok (safeDefaultOutput "llm_model" {}) ∧
    (make_logged_node "fetch_data" (fun _ => .error "db missing") 0 (1/2) {}).1 =
      .error "db missing" := by
  constructor
  · exact (C5_exhaustion_policy "llm_model" (fun _ => .error "downstream outage") 1 (1/2) {}
      (fun _ => "downstream outage") (fun i _ => rfl)).2.1 (by decide)
  · exact (C5_exhaustion_policy "fetch_data" (fun _ => .error "db missing") 0 (1/2) {}
      (fun _ => "db missing") (fun i _ => rfl)).1 (Or.inl rfl)

lemma wrapperLoop_events (nodeName : String) (fn : ℕ → Except String ERState)
    (d : ℚ) (state : ERState) :
    ∀ (r j : ℕ),
      countInput (wrapperLoop nodeName fn d state j r).2 = 0 ∧
      countTerminal (wrapperLoop nodeName fn d state j r).2 = 1 := by
  intro r
  induction r with
  | zero =>
    intro j
    rcases hf : fn j with e | out
    · by_cases hc : nodeName ∈ criticalNodes <;>
        simp [wrapperLoop, hf, hc, countInput, countTerminal]
    · simp [wrapperLoop, hf, countInput, countTerminal]
  | succ r ih =>
    intro j
    rcases hf : fn j with e | out
    · have := ih (j + 1)
      simp [wrapperLoop, hf, countInput, countTerminal] at this ⊢
      exact this
    · simp [wrapperLoop, hf, countInput, countTerminal]

/-- Claim C7: every invocation of a wrapped node emits exactly one
`<name>_INPUT` record and exactly one of `<name>_OUTPUT` / `<name>_ERROR` —
never both, never zero — regardless of success, retries, safe-default
substitution or critical propagation, and the `_INPUT` record comes first
in the trace. -/
theorem C7_audit_contract (nodeName : String) (fn : ℕ → Except String ERState)
    (maxRetries : ℕ) (d : ℚ) (state : ERState) :
    ∃ rest,
      (make_logged_node nodeName fn maxRetries d state).2 =
        AuditEvent.input nodeName :: rest ∧
      countInput rest = 0 ∧ countTerminal rest = 1 ∧
      countInput ((make_logged_node nodeName fn maxRetries d state).2) = 1 ∧
      countTerminal ((make_logged_node nodeName fn maxRetries d state).2) = 1 := by
  have h := wrapperLoop_events nodeName fn d state maxRetries 0
  refine ⟨(wrapperLoop nodeName fn d state 0 maxRetries).2, rfl, h.1, h.2, ?_, ?_⟩
  · have h1 := h.1
    simp only [countInput] at h1 ⊢
    simp [make_logged_node, List.countP_cons, h1]
  · have h2 := h.2
    simp only [countTerminal] at h2 ⊢
    simp [make_logged_node, List.countP_cons, h2]

lemma wrapperLoop_sleeps (nodeName : String) (fn : ℕ → Except String ERState)
    (d : ℚ) (state : ERState) (out : ERState) :
    ∀ (k r j : ℕ), k ≤ r →
      (∀ i, i < k → ∃ e, fn (j + i) = .error e) →
      fn (j + k) = .ok out →
      sleepDurations (wrapperLoop nodeName fn d state j r).2 =
        (List.range k).map (fun i => d * (((j + i : ℕ) : ℚ) + 1)) := by
  intro k
  induction k with
  | zero =>
    intro r j _ _ hsucc
    rw [Nat.add_zero] at hsucc
    cases r <;> simp [wrapperLoop, hsucc, sleepDurations]
  | succ k ih =>
    intro r j hk hfail hsucc
    obtain ⟨r', rfl⟩ : ∃ r', r = r' + 1 := ⟨r - 1, by omega⟩
    obtain ⟨e, he⟩ := hfail 0 (by omega)
    rw [Nat.add_zero] at he
    have hrest := ih r' (j + 1) (by omega)
      (by
        intro i hi
        obtain ⟨e2, he2⟩ := hfail (i + 1) (by omega)
        exact ⟨e2, by simpa [Nat.add_assoc, Nat.add_comm 1 i] using he2⟩)
      (by simpa [Nat.add_assoc, Nat.add_comm 1 k] using hsucc)
    simp only [wrapperLoop, he, sleepDurations, List.filterMap_cons]
    rw [List.range_succ_eq_map]
    simp only [List.map_cons, List.map_map, Nat.add_zero]
    refine congrArg₂ _ rfl ?_
    rw [show sleepDurations (wrapperLoop nodeName fn d state (j + 1) r').2 =
        List.filterMap
          (fun e => match e with | AuditEvent.sleep d2 => some d2 | _ => none)
          (wrapperLoop nodeName fn d state (j + 1) r').2 from rfl] at hrest
    rw [hrest]
    refine List.map_congr_left ?_
    intro i _
    have : j + 1 + i = j + (i + 1) := by omega
    simp [Function.comp, this]

lemma wrapperLoop_sleeps_allfail (nodeName : String) (fn : ℕ → Except String ERState)
    (d : ℚ) (state : ERState) :
    ∀ (r j : ℕ), (∀ i, i ≤ r → ∃ e, fn (j + i) = .error e) →
      sleepDurations (wrapperLoop nodeName fn d state j r).2 =
        (List.range r).map (fun i => d * (((j + i : ℕ) : ℚ) + 1)) := by
  intro r
  induction r with
  | zero =>
    intro j h
    obtain ⟨e, he⟩ := h 0 (le_refl 0)
    rw [Nat.add_zero] at he
    by_cases hc : nodeName ∈ criticalNodes <;>
      simp [wrapperLoop, he, hc, sleepDurations]
  | succ r ih =>
    intro j h
    obtain ⟨e, he⟩ := h 0 (by omega)
    rw [Nat.add_zero] at he
    have hrest := ih (j + 1) (by
      intro i hi
      obtain ⟨e2, he2⟩ := h (i + 1) (by omega)
      exact ⟨e2, by simpa [Nat.add_assoc, Nat.add_comm 1 i] using he2⟩)
    simp only [wrapperLoop, he, sleepDurations, List.filterMap_cons]
    rw [List.range_succ_eq_map]
    simp only [List.map_cons, List.map_map, Nat.add_zero]
    refine congrArg₂ _ rfl ?_
    rw [show sleepDurations (wrapperLoop nodeName fn d state (j + 1) r).2 =
        List.filterMap
          (fun e => match e with | AuditEvent.sleep d2 => some d2 | _ => none)
          (wrapperLoop nodeName fn d state (j + 1) r).2 from rfl] at hrest
    rw [hrest]
    refine List.map_congr_left ?_
    intro i _
    have : j + 1 + i = j + (i + 1) := by omega
    simp [Function.comp, this]

/-- Claim C8: between consecutive attempts the wrapper sleeps
`retry_delay * (attempt + 1)` where `attempt` is the 0-based index of the
attempt that just failed — i.e. `retryDelay ×` the 1-based attempt index,
linear (not exponential) growth, for every `max_retries`/`retry_delay`
configuration: a run whose first `k` attempts fail and then succeeds
sleeps exactly `[d·1, d·2, …, d·k]`, and a run whose every attempt fails
sleeps `[d·1, …, d·maxRetries]` (no sleep after the final attempt). -/
theorem C8_linear_backoff (nodeName : String) (fn : ℕ → Except String ERState)
    (maxRetries : ℕ) (d : ℚ) (state : ERState) :
    (∀ (k : ℕ) (out : ERState), k ≤ maxRetries →
      (∀ i, i < k → ∃ e, fn i = .error e) → fn k = .ok out →
      sleepDurations (make_logged_node nodeName fn maxRetries d state).2 =
        (List.range k).map (fun (i : ℕ) => d * ((i : ℚ) + 1))) ∧
    ((∀ i, i ≤ maxRetries → ∃ e, fn i = .error e) →
      sleepDurations (make_logged_node nodeName fn maxRetries d state).2 =
        (List.range maxRetries).map (fun (i : ℕ) => d * ((i : ℚ) + 1))) := by
  have hcons : (make_logged_node nodeName fn maxRetries d state).2 =
      AuditEvent.input nodeName :: (wrapperLoop nodeName fn d state 0 maxRetries).2 := rfl
  constructor
  · intro k out hk hfail hsucc
    have h := wrapperLoop_sleeps nodeName fn d state out k maxRetries 0 hk
      (by intro i hi; simpa using hfail i hi) (by simpa using hsucc)
    rw [hcons]
    simp only [sleepDurations, List.filterMap_cons] at h ⊢
    rw [h]
    refine List.map_congr_left ?_
    intro i _
    simp
  · intro hfail
    have h := wrapperLoop_sleeps_allfail nodeName fn d state maxRetries 0
      (by intro i hi; simpa using hfail i hi)
    rw [hcons]
    simp only [sleepDurations, List.filterMap_cons] at h ⊢
    rw [h]
    refine List.map_congr_left ?_
    intro i _
    simp

/-- Witness for C8: with `retry_delay = 1` and the first two attempts
failing, the recorded backoff delays are `1·1` and `1·2`. -/
theorem C8_witness :
    sleepDurations
      (make_logged_node "ml_model"
        (fun i => if i < 2 then .error "transient" else .ok {}) 3 1 {}).2 =
    (List.range 2).map (fun (i : ℕ) => (1 : ℚ) * ((i : ℚ) + 1)) := by
  refine (C8_linear_backoff "ml_model"
    (fun i => if i < 2 then .error "transient" else .ok {}) 3 1 {}).1 2 {}
    (by omega) ?_ ?_
  · intro i hi
    exact ⟨"transient", by simp [hi]⟩
  · simp

lemma ageRisk_bounds (pd : PatientData) : 0 ≤ ageRisk pd ∧ ageRisk pd ≤ 1/5 := by
  unfold ageRisk
  dsimp only
  split_ifs <;> norm_num

lemma esiRisk_bounds (pd : PatientData) : 0 ≤ esiRisk pd ∧ esiRisk pd ≤ 3/10 := by
  unfold esiRisk
  dsimp only
  split_ifs <;> norm_num

lemma readmissionRisk_bounds (pd : PatientData) :
    0 ≤ readmissionRisk pd ∧ readmissionRisk pd ≤ 1/5 := by
  unfold readmissionRisk
  rw [rmin_eq_min]
  constructor
  · apply le_min
    · positivity
    · norm_num
  · exact min_le_right _ _

lemma historyRisk_nonneg (pd : PatientData) : 0 ≤ historyRisk pd := by
  unfold historyRisk
  dsimp only
  split_ifs
  · positivity
  · exact le_refl 0

lemma vitalsRisk_bounds (pd : PatientData) :
    0 ≤ vitalsRisk pd ∧ vitalsRisk pd ≤ 3/20 := by
  unfold vitalsRisk
  dsimp only
  rw [rmin_eq_min]
  constructor
  · apply le_min
    · split_ifs <;> norm_num
    · norm_num
  · exact min_le_right _ _

/-- Claim C9: `calculate_patient_risk_score` is a pure function of its
argument (a Lean function — identical input gives identical output by
reflexivity, and there are no side effects to model), computing exactly
`min(1, age-bucket risk + acuity risk + min(recent_admissions·0.1, 0.2) +
historical-rate·0.15 + vital-abnormality risk)` with the component ranges
the spec states (age 0–0.2 with `"65+"` highest, acuity 0–0.3 with ESI 1
highest, vitals 0–0.15 at 0.05 per abnormal vital), so the result is
always in [0, 1]. -/
theorem C9_risk_score_formula (pd : PatientData) :
    calculate_patient_risk_score pd =
      min (ageRisk pd + esiRisk pd + readmissionRisk pd + historyRisk pd + vitalsRisk pd)
        1 ∧
    0 ≤ calculate_patient_risk_score pd ∧
    calculate_patient_risk_score pd ≤ 1 ∧
    readmissionRisk pd = min ((pd.recent_admissions_30d.getD 0 : ℚ) * (1/10)) (1/5) ∧
    (0 ≤ ageRisk pd ∧ ageRisk pd ≤ 1/5) ∧
    (0 ≤ esiRisk pd ∧ esiRisk pd ≤ 3/10) ∧
    (0 ≤ vitalsRisk pd ∧ vitalsRisk pd ≤ 3/20) ∧
    ageRisk { pd with age_bucket := some "65+" } = 1/5 ∧
    esiRisk { pd with ESI := some 1 } = 3/10 := by
  have ha := ageRisk_bounds pd
  have he := esiRisk_bounds pd
  have hr := readmissionRisk_bounds pd
  have hh := historyRisk_nonneg pd
  have hv := vitalsRisk_bounds pd
  have hformula : calculate_patient_risk_score pd =
      min (ageRisk pd + esiRisk pd + readmissionRisk pd + historyRisk pd + vitalsRisk pd)
        1 := by
    simp [calculate_patient_risk_score]
  refine ⟨hformula, ?_, ?_, by simp [readmissionRisk], ha, he, hv, ?_, ?_⟩
  · rw [hformula]
    apply le_min
    · have := ha.1
      have := he.1
      have := hr.1
      have := hv.1
      linarith
    · norm_num
  · rw [hformula]
    exact min_le_right _ _
  · simp [ageRisk]
  · simp [esiRisk]

end ER
